import Mathlib

/-!
A shallow embedding of the tic-tac-toe repository: the board engine in its two
versions (`src/tictactoe.rs`, embedded below as namespace `OldV`, and
`src/network_communication/tictactoe.rs`, embedded as namespace `NetV`),
the session layer of `src/network_communication.rs`, and the inbound message
decoder. Rust's `&mut self` methods become pure functions returning the new
value; `Result<T, E>` becomes `Except E T`; `usize` becomes `Nat`.
-/

namespace TTT

/-- A fixed-size three-element array, modelling Rust `[T; 3]`. -/
structure Triple (α : Type) where
  a : α
  b : α
  c : α
deriving DecidableEq

/-- Bounds-checked indexing into a `Triple`; `none` models a Rust index panic. -/
def Triple.get? {α : Type} (t : Triple α) : Nat → Option α
  | 0 => some t.a
  | 1 => some t.b
  | 2 => some t.c
  | _ + 3 => none

/-- Update one slot of a `Triple` (identity out of range). -/
def Triple.set {α : Type} (t : Triple α) (i : Nat) (v : α) : Triple α :=
  match i with
  | 0 => { t with a := v }
  | 1 => { t with b := v }
  | 2 => { t with c := v }
  | _ + 3 => t

def Triple.toList {α : Type} (t : Triple α) : List α := [t.a, t.b, t.c]

/-- Source `Tile`: symbols on the playmat (both source versions). -/
inductive Tile
  | Cross
  | Circle
  | Empty
deriving DecidableEq

/-- Source `Tile::to_char`. -/
def Tile.to_char : Tile → Char
  | .Cross => 'X'
  | .Circle => 'O'
  | .Empty => ' '

/-- Source `Player` (both source versions). -/
inductive Player
  | You
  | Opponent
  | Noone
deriving DecidableEq

/-- Source `Player::tile`. -/
def Player.tile : Player → Tile
  | .You => .Circle
  | .Opponent => .Cross
  | .Noone => .Empty

/-- Source `type State = [[Tile; 3]; 3]`, indexed as `state[x][y]`. -/
abbrev State := Triple (Triple Tile)

/-- Bounds-checked `state[x][y]`; `none` models a Rust index panic. -/
def State.get? (s : State) (x y : Nat) : Option Tile :=
  (Triple.get? s x).bind (fun row => Triple.get? row y)

/-- Total read of `state[x][y]`; used only where the source has already
range-checked `x` and `y` (the checked variants below justify this). -/
def State.get (s : State) (x y : Nat) : Tile :=
  (State.get? s x y).getD .Empty

/-- Total write `state[x][y] = t` (identity out of range). -/
def State.set (s : State) (x y : Nat) (t : Tile) : State :=
  match Triple.get? s x with
  | some row => Triple.set s x (Triple.set row y t)
  | none => s

/-- Bounds-checked write `state[x][y] = t`; `none` models a Rust index panic. -/
def State.set? (s : State) (x y : Nat) (t : Tile) : Option State :=
  (State.get? s x y).map (fun _ => State.set s x y t)

/-- Source `[[Tile::Empty; 3]; 3]`. -/
def emptyState : State :=
  ⟨⟨.Empty, .Empty, .Empty⟩, ⟨.Empty, .Empty, .Empty⟩, ⟨.Empty, .Empty, .Empty⟩⟩

/-- Source `GameError` (both source versions). -/
inductive GameError
  | InvalidValue
  | OccupiedField
deriving DecidableEq

/-- Source `struct TicTacToe { state, winner }` (both source versions). -/
structure TicTacToe where
  state : State
  winner : Player
deriving DecidableEq

/-- Source `TicTacToe::new`. -/
def TicTacToe.new : TicTacToe := ⟨emptyState, .Noone⟩

/-- Source `TicTacToe::reset` (both versions): clears the board and the winner. -/
def TicTacToe.reset (_g : TicTacToe) : TicTacToe := ⟨emptyState, .Noone⟩

/-- Source `TicTacToe::am_i_winner`. -/
def TicTacToe.am_i_winner (g : TicTacToe) : Bool := g.winner == .You

/-- Source `TicTacToe::is_opponent_winner`. -/
def TicTacToe.is_opponent_winner (g : TicTacToe) : Bool := g.winner == .Opponent

/-- The line test used by `check_win` in both versions:
`array.iter().fold(true, |res, &t| (t == tile) && res)`. -/
def lineAll (l : List Tile) (tile : Tile) : Bool :=
  l.foldl (fun res t => (t == tile) && res) true

/-! The board engine of `src/network_communication/tictactoe.rs` -/

namespace NetV

/-- Source `Diagonal` of the network version: `Direct`, `Undirect`, `Middle`. -/
inductive Diagonal
  | Direct
  | Undirect
  | Middle
deriving DecidableEq

/-- Source `get_direct_diagonal`: `[0, 1, 2].map(|index| state[index][index])`. -/
def get_direct_diagonal (s : State) : List Tile :=
  [State.get s 0 0, State.get s 1 1, State.get s 2 2]

/-- Source `get_indirect_diagonal`. Its body in the source is
`[0, 1, 2].map(|index| state[index][index])` — the same cells as
`get_direct_diagonal`, not the anti-diagonal. -/
def get_indirect_diagonal (s : State) : List Tile :=
  [State.get s 0 0, State.get s 1 1, State.get s 2 2]

/-- Source `TicTacToe::get_diagonal_type`. -/
def get_diagonal_type (x y : Nat) : Option Diagonal :=
  match x, y with
  | 0, 0 | 2, 2 => some .Direct
  | 2, 0 | 0, 2 => some .Undirect
  | 1, 1 => some .Middle
  | _, _ => none

/-- Source `TicTacToe::get_diagonal` of the network version. -/
def get_diagonal (s : State) (x y : Nat) : Option (List (List Tile)) :=
  match get_diagonal_type x y with
  | some .Direct => some [get_direct_diagonal s]
  | some .Undirect => some [get_indirect_diagonal s]
  | some .Middle => some [get_direct_diagonal s, get_indirect_diagonal s]
  | none => none

/-- Source `TicTacToe::check_win` of the network version: inspects column `y`,
row `x`, and `get_diagonal(x, y).unwrap_or_default()`. -/
def check_win (s : State) (tile : Tile) (x y : Nat) : Bool :=
  let col := [State.get s 0 y, State.get s 1 y, State.get s 2 y]
  let row := Triple.toList ((Triple.get? s x).getD ⟨.Empty, .Empty, .Empty⟩)
  let options := [col, row] ++ ((get_diagonal s x y).getD [])
  options.any (fun l => lineAll l tile)

/-- Source `TicTacToe::make_turn`: writes the tile, then runs `check_win`. -/
def make_turn (g : TicTacToe) (tile : Tile) (x y : Nat) : Bool × TicTacToe :=
  let s' := State.set g.state x y tile
  (check_win s' tile x y, { g with state := s' })

/-- Source `TicTacToe::make_turn_universal` of the network version. -/
def make_turn_universal (g : TicTacToe) (p : Player) (x y : Nat) :
    Except GameError Unit × TicTacToe :=
  if x > 2 ∨ y > 2 then (.error .InvalidValue, g)
  else if State.get g.state x y ≠ .Empty then (.error .OccupiedField, g)
  else
    let r := make_turn g p.tile x y
    if r.1 then (.ok (), { r.2 with winner := p }) else (.ok (), r.2)

/-- Source `TicTacToe::make_my_turn`. -/
def make_my_turn (g : TicTacToe) (x y : Nat) : Except GameError Unit × TicTacToe :=
  make_turn_universal g .You x y

/-- Source `TicTacToe::make_opponent_turn`. -/
def make_opponent_turn (g : TicTacToe) (x y : Nat) : Except GameError Unit × TicTacToe :=
  make_turn_universal g .Opponent x y

/-! Bounds-checked clones of the network-version engine: every array access
of the source goes through `State.get?` / `Triple.get?` / `State.set?`, and
an overall `none` models an index panic. They are proved below to agree
with (the `some` of) the total functions above, which establishes that the
range check at the head of `make_turn_universal` shields every access. -/

/-- Source `get_direct_diagonal`, with checked accesses. -/
def get_direct_diagonal_checked (s : State) : Option (List Tile) := do
  let t0 ← State.get? s 0 0
  let t1 ← State.get? s 1 1
  let t2 ← State.get? s 2 2
  pure [t0, t1, t2]

/-- Source `get_indirect_diagonal`, with checked accesses (same cells as the
direct diagonal, as in the source). -/
def get_indirect_diagonal_checked (s : State) : Option (List Tile) := do
  let t0 ← State.get? s 0 0
  let t1 ← State.get? s 1 1
  let t2 ← State.get? s 2 2
  pure [t0, t1, t2]

/-- Source `get_diagonal`, with checked accesses. -/
def get_diagonal_checked (s : State) (x y : Nat) : Option (Option (List (List Tile))) :=
  match get_diagonal_type x y with
  | some .Direct => do
      let d ← get_direct_diagonal_checked s
      pure (some [d])
  | some .Undirect => do
      let d ← get_indirect_diagonal_checked s
      pure (some [d])
  | some .Middle => do
      let d1 ← get_direct_diagonal_checked s
      let d2 ← get_indirect_diagonal_checked s
      pure (some [d1, d2])
  | none => pure none

/-- Source `check_win`, with checked accesses. -/
def check_win_checked (s : State) (tile : Tile) (x y : Nat) : Option Bool := do
  let c0 ← State.get? s 0 y
  let c1 ← State.get? s 1 y
  let c2 ← State.get? s 2 y
  let row ← Triple.get? s x
  let diag ← get_diagonal_checked s x y
  let options := [[c0, c1, c2], Triple.toList row] ++ diag.getD []
  pure (options.any (fun l => lineAll l tile))

/-- Source `make_turn`, with checked accesses. -/
def make_turn_checked (g : TicTacToe) (tile : Tile) (x y : Nat) :
    Option (Bool × TicTacToe) := do
  let s' ← State.set? g.state x y tile
  let w ← check_win_checked s' tile x y
  pure (w, { g with state := s' })

/-- Source `make_turn_universal`, with checked accesses. -/
def make_turn_universal_checked (g : TicTacToe) (p : Player) (x y : Nat) :
    Option (Except GameError Unit × TicTacToe) :=
  if x > 2 ∨ y > 2 then pure (.error .InvalidValue, g)
  else do
    let t ← State.get? g.state x y
    if t ≠ Tile.Empty then pure (.error .OccupiedField, g)
    else do
      let r ← make_turn_checked g p.tile x y
      if r.1 then pure (.ok (), { r.2 with winner := p }) else pure (.ok (), r.2)

end NetV

/-- Source `check_win_brute_force` from the test module of
`src/network_communication/tictactoe.rs`: scans every winning line through
`(x, y)` — column `y`, row `x`, and each actual diagonal containing `(x, y)`. -/
def check_win_brute_force (s : State) (tile : Tile) (x y : Nat) : Bool :=
  if State.get s 0 y == tile && State.get s 1 y == tile && State.get s 2 y == tile then
    true
  else if State.get s x 0 == tile && State.get s x 1 == tile && State.get s x 2 == tile then
    true
  else if [(0, 0), (1, 1), (2, 2)].contains (x, y)
      && State.get s 0 0 == tile && State.get s 1 1 == tile && State.get s 2 2 == tile then
    true
  else if [(2, 0), (1, 1), (0, 2)].contains (x, y)
      && State.get s 2 0 == tile && State.get s 1 1 == tile && State.get s 0 2 == tile then
    true
  else
    false

/-! The board engine of `src/tictactoe.rs` -/

namespace OldV

/-- Source `Diagonal` of the old version: no `Middle` variant. -/
inductive Diagonal
  | Direct
  | Undirect
deriving DecidableEq

/-- Source `TicTacToe::is_corner` of the old version: `(1, 1)` falls into the
catch-all and maps to no diagonal. -/
def is_corner (x y : Nat) : Option Diagonal :=
  match x, y with
  | 0, 0 | 2, 2 => some .Direct
  | 2, 0 | 0, 2 => some .Undirect
  | _, _ => none

/-- Source `TicTacToe::get_diagonal` of the old version. -/
def get_diagonal (s : State) (x y : Nat) : Option (List Tile) :=
  match is_corner x y with
  | some .Direct => some [State.get s 0 0, State.get s 1 1, State.get s 2 2]
  | some .Undirect => some [State.get s 0 2, State.get s 1 1, State.get s 2 0]
  | none => none

/-- Source `TicTacToe::check_win` of the old version. -/
def check_win (s : State) (tile : Tile) (x y : Nat) : Bool :=
  let col := [State.get s 0 y, State.get s 1 y, State.get s 2 y]
  let row := Triple.toList ((Triple.get? s x).getD ⟨.Empty, .Empty, .Empty⟩)
  let options :=
    [col, row] ++ (match get_diagonal s x y with
      | some d => [d]
      | none => [])
  options.any (fun l => lineAll l tile)

/-- Source `TicTacToe::make_turn` of the old version. -/
def make_turn (g : TicTacToe) (tile : Tile) (x y : Nat) : Bool × TicTacToe :=
  let s' := State.set g.state x y tile
  (check_win s' tile x y, { g with state := s' })

/-- Source `TicTacToe::make_turn_universal` of the old version. -/
def make_turn_universal (g : TicTacToe) (p : Player) (x y : Nat) :
    Except GameError Unit × TicTacToe :=
  if x > 2 ∨ y > 2 then (.error .InvalidValue, g)
  else if State.get g.state x y ≠ .Empty then (.error .OccupiedField, g)
  else
    let r := make_turn g p.tile x y
    if r.1 then (.ok (), { r.2 with winner := p }) else (.ok (), r.2)

/-- Source `TicTacToe::make_my_turn` of the old version. -/
def make_my_turn (g : TicTacToe) (x y : Nat) : Except GameError Unit × TicTacToe :=
  make_turn_universal g .You x y

/-- Source `TicTacToe::make_opponent_turn` of the old version. -/
def make_opponent_turn (g : TicTacToe) (x y : Nat) : Except GameError Unit × TicTacToe :=
  make_turn_universal g .Opponent x y

/-! Bounds-checked clones of the old-version engine, as for `NetV`. -/

/-- Source `get_diagonal` of the old version, with checked accesses. -/
def get_diagonal_checked (s : State) (x y : Nat) : Option (Option (List Tile)) :=
  match is_corner x y with
  | some .Direct => do
      let t0 ← State.get? s 0 0
      let t1 ← State.get? s 1 1
      let t2 ← State.get? s 2 2
      pure (some [t0, t1, t2])
  | some .Undirect => do
      let t0 ← State.get? s 0 2
      let t1 ← State.get? s 1 1
      let t2 ← State.get? s 2 0
      pure (some [t0, t1, t2])
  | none => pure none

/-- Source `check_win` of the old version, with checked accesses. -/
def check_win_checked (s : State) (tile : Tile) (x y : Nat) : Option Bool := do
  let c0 ← State.get? s 0 y
  let c1 ← State.get? s 1 y
  let c2 ← State.get? s 2 y
  let row ← Triple.get? s x
  let diag ← get_diagonal_checked s x y
  let options :=
    [[c0, c1, c2], Triple.toList row] ++ (match diag with
      | some d => [d]
      | none => [])
  pure (options.any (fun l => lineAll l tile))

/-- Source `make_turn` of the old version, with checked accesses. -/
def make_turn_checked (g : TicTacToe) (tile : Tile) (x y : Nat) :
    Option (Bool × TicTacToe) := do
  let s' ← State.set? g.state x y tile
  let w ← check_win_checked s' tile x y
  pure (w, { g with state := s' })

/-- Source `make_turn_universal` of the old version, with checked accesses. -/
def make_turn_universal_checked (g : TicTacToe) (p : Player) (x y : Nat) :
    Option (Except GameError Unit × TicTacToe) :=
  if x > 2 ∨ y > 2 then pure (.error .InvalidValue, g)
  else do
    let t ← State.get? g.state x y
    if t ≠ Tile.Empty then pure (.error .OccupiedField, g)
    else do
      let r ← make_turn_checked g p.tile x y
      if r.1 then pure (.ok (), { r.2 with winner := p }) else pure (.ok (), r.2)

end OldV

/-! Session layer of `src/network_communication.rs` (uses the `NetV` engine) -/

/-- Source `GameStatus`: the internal events pushed by the decoder. -/
inductive GameStatus
  | Init (initiatorId : String)
  | Start (accept : Bool)
  | Turn (x y : Nat)
deriving DecidableEq

/-- Source `struct GameSession`. The `topic` field (a constant libp2p floodsub
topic handle belonging to the transport) is not modelled. -/
structure GameSession where
  opponent_id : String
  game : TicTacToe
  your_turn : Option Bool
deriving DecidableEq

/-- Source `GameSession::new`. -/
def GameSession.new : GameSession := ⟨"", TicTacToe.new, none⟩

/-- Source `GameSession::initiate`. -/
def GameSession.initiate (s : GameSession) (oppId : String) (yourTurn : Bool) : GameSession :=
  { s with opponent_id := oppId, your_turn := some yourTurn }

/-- Source `GameSession::is_initiated`. -/
def GameSession.is_initiated (s : GameSession) : Bool := s.your_turn.isSome

/-- Source `GameSession::reset`: resets the game and clears `opponent_id`.
It does not touch `your_turn`. -/
def GameSession.reset (s : GameSession) : GameSession :=
  { s with game := TicTacToe.reset s.game, opponent_id := "" }

/-- Source `GameSession::is_your_turn`. -/
def GameSession.is_your_turn (s : GameSession) : Bool := s.your_turn.getD false

/-- Source `GameSession::make_opponent_turn`: applies the move (discarding the
`Result`) and unconditionally sets `your_turn = Some(true)`. -/
def GameSession.make_opponent_turn (s : GameSession) (x y : Nat) : GameSession :=
  { s with game := (NetV.make_opponent_turn s.game x y).2, your_turn := some true }

/-- Source `GameSession::make_my_turn`: sets `your_turn = Some(false)` first, then
delegates to the game. -/
def GameSession.make_my_turn (s : GameSession) (x y : Nat) :
    Except GameError Unit × GameSession :=
  let s1 := { s with your_turn := some false }
  let r := NetV.make_my_turn s1.game x y
  (r.1, { s1 with game := r.2 })

/-- Source `resolve_opponent_turn`: applies the opponent move unconditionally and
resets the session when the opponent has won (output callbacks omitted). -/
def resolve_opponent_turn (x y : Nat) (s : GameSession) : GameSession :=
  let s1 := GameSession.make_opponent_turn s x y
  if TicTacToe.is_opponent_winner s1.game then GameSession.reset s1 else s1

/-- Source `resolve_spawned_messages` (output callbacks omitted): acts on the
session for `Init` events addressed to this peer and for `Turn` events. -/
def resolve_spawned_messages (st : GameStatus) (s : GameSession) (userPeerId : String) :
    GameSession :=
  match st with
  | .Init initiatorId =>
      if initiatorId == userPeerId then GameSession.initiate s initiatorId false else s
  | .Start _ => s
  | .Turn x y => resolve_opponent_turn x y s

/-! Message decoder (`TicTacToeBehaviour::inject_event` for floodsub) -/

/-- Source `struct Request { sender: String }`. -/
structure Request where
  sender : String
deriving DecidableEq

/-- Source `struct Answer { accept: bool }`. -/
structure Answer where
  accept : Bool
deriving DecidableEq

/-- Source `struct MyTurn { x: usize, y: usize }`. -/
structure MyTurn where
  x : Nat
  y : Nat
deriving DecidableEq

/-- An inbound JSON object projected onto the fields the three serde
decoders inspect. `serde_json` derives deserializers that accept any JSON
object carrying the struct's fields at the right types and ignore unknown
fields, so for the purpose of the three `from_slice` calls a decodable
payload is characterised by which of `sender` (string), `accept` (bool),
`x`/`y` (non-negative integers) it carries. A payload that is not a JSON
object at all is the all-`none` projection. -/
structure InboundPayload where
  sender : Option String
  accept : Option Bool
  x : Option Nat
  y : Option Nat
deriving DecidableEq

/-- Source `serde_json::from_slice::<Request>`: succeeds iff a `sender` string
field is present. -/
def parseRequest (p : InboundPayload) : Option Request :=
  p.sender.map Request.mk

/-- Source `serde_json::from_slice::<Answer>`: succeeds iff an `accept` bool field
is present. -/
def parseAnswer (p : InboundPayload) : Option Answer :=
  p.accept.map Answer.mk

/-- Source `serde_json::from_slice::<MyTurn>`: succeeds iff both `x` and `y` are
present. -/
def parseMyTurn (p : InboundPayload) : Option MyTurn :=
  match p.x, p.y with
  | some x, some y => some ⟨x, y⟩
  | _, _ => none

/-- Source `TicTacToeBehaviour::inject_event` on a floodsub message: three
independent `if let Ok(..)` decoding attempts, each spawning one internal
event on success, in source order `Request`, `Answer`, `MyTurn`. The
returned list is the sequence of events pushed for this one message. -/
def inject_event (p : InboundPayload) : List GameStatus :=
  ((parseRequest p).map (fun r => GameStatus.Init r.sender)).toList
    ++ ((parseAnswer p).map (fun a => GameStatus.Start a.accept)).toList
    ++ ((parseMyTurn p).map (fun t => GameStatus.Turn t.x t.y)).toList

/-! Concrete fixtures used by the theorems below. -/

/-- Board whose anti-diagonal `(0,2), (1,1), (2,0)` is filled with `Circle`
and whose other cells are `Empty`. -/
def antiDiagBoard : State :=
  ⟨⟨.Empty, .Empty, .Circle⟩, ⟨.Empty, .Circle, .Empty⟩, ⟨.Circle, .Empty, .Empty⟩⟩

/-- Board whose main diagonal `(0,0), (1,1), (2,2)` is filled with `Circle`
and whose other cells are `Empty`. -/
def mainDiagBoard : State :=
  ⟨⟨.Circle, .Empty, .Empty⟩, ⟨.Empty, .Circle, .Empty⟩, ⟨.Empty, .Empty, .Circle⟩⟩

/-- A game whose cell `(0,0)` is already occupied by `Circle`. -/
def occupiedGame : TicTacToe :=
  ⟨⟨⟨.Circle, .Empty, .Empty⟩, ⟨.Empty, .Empty, .Empty⟩, ⟨.Empty, .Empty, .Empty⟩⟩, .Noone⟩

/-- An active session where it is the local player's turn and cell `(0,0)`
is occupied. -/
def occupiedSession : GameSession := ⟨"opponent", occupiedGame, some true⟩

/-- A session whose handshake has completed (here: waiting for the opponent). -/
def concludedSession : GameSession := ⟨"opponent", TicTacToe.new, some false⟩

/-- Apply a list of `(player, x, y)` moves through `make_turn_universal` of
the network version, with no reset in between, discarding per-move results
(as `GameSession` does). -/
def playAll (g : TicTacToe) (ms : List (Player × Nat × Nat)) : TicTacToe :=
  ms.foldl (fun g m => (NetV.make_turn_universal g m.1 m.2.1 m.2.2).2) g

/-- A payload carrying both a `sender` string and an `accept` bool, e.g. the
JSON object with exactly those two fields; serde's derived decoders for
`Request` and `Answer` both accept it, each ignoring the other field. -/
def multiShapePayload : InboundPayload := ⟨some "peerA", some true, none, none⟩

/-! Helper lemmas. -/

lemma State.get?_eq (s : State) {x y : Nat} (hx : x ≤ 2) (hy : y ≤ 2) :
    State.get? s x y = some (State.get s x y) := by
  interval_cases x <;> interval_cases y <;> rfl

lemma State.set?_eq (s : State) {x y : Nat} (t : Tile) (hx : x ≤ 2) (hy : y ≤ 2) :
    State.set? s x y t = some (State.set s x y t) := by
  rw [State.set?, State.get?_eq s hx hy]
  rfl

lemma NetV.check_win_checked_eq_net (s : State) (tile : Tile) {x y : Nat}
    (hx : x ≤ 2) (hy : y ≤ 2) :
    NetV.check_win_checked s tile x y = some (NetV.check_win s tile x y) := by
  interval_cases x <;> interval_cases y <;> rfl

lemma NetV.make_turn_checked_eq_net (g : TicTacToe) (tile : Tile) {x y : Nat}
    (hx : x ≤ 2) (hy : y ≤ 2) :
    NetV.make_turn_checked g tile x y = some (NetV.make_turn g tile x y) := by
  unfold NetV.make_turn_checked NetV.make_turn
  rw [State.set?_eq g.state tile hx hy]
  show (NetV.check_win_checked (State.set g.state x y tile) tile x y).bind _ = _
  rw [NetV.check_win_checked_eq_net _ tile hx hy]
  rfl

lemma NetV.make_turn_universal_checked_eq_net (p : Player) (x y : Nat) (g : TicTacToe) :
    NetV.make_turn_universal_checked g p x y = some (NetV.make_turn_universal g p x y) := by
  unfold NetV.make_turn_universal_checked NetV.make_turn_universal
  by_cases h : x > 2 ∨ y > 2
  · simp [h]
  · push_neg at h
    have hx2 : x ≤ 2 := by omega
    have hy2 : y ≤ 2 := by omega
    rw [if_neg (by omega), if_neg (by omega)]
    show (State.get? g.state x y).bind _ = _
    rw [State.get?_eq g.state hx2 hy2]
    show (if State.get g.state x y ≠ Tile.Empty then _ else _) = _
    by_cases hocc : State.get g.state x y ≠ Tile.Empty
    · simp only [if_pos hocc]
      rfl
    · simp only [if_neg hocc]
      show (NetV.make_turn_checked g p.tile x y).bind _ = _
      rw [NetV.make_turn_checked_eq_net g p.tile hx2 hy2]
      by_cases hw : (NetV.make_turn g p.tile x y).1 = true
      · simp only [Option.some_bind, hw, if_true]
        rfl
      · simp only [Option.some_bind, hw, if_false]
        rfl

lemma OldV.check_win_checked_eq_old (s : State) (tile : Tile) {x y : Nat}
    (hx : x ≤ 2) (hy : y ≤ 2) :
    OldV.check_win_checked s tile x y = some (OldV.check_win s tile x y) := by
  interval_cases x <;> interval_cases y <;> rfl

lemma OldV.make_turn_checked_eq_old (g : TicTacToe) (tile : Tile) {x y : Nat}
    (hx : x ≤ 2) (hy : y ≤ 2) :
    OldV.make_turn_checked g tile x y = some (OldV.make_turn g tile x y) := by
  unfold OldV.make_turn_checked OldV.make_turn
  rw [State.set?_eq g.state tile hx hy]
  show (OldV.check_win_checked (State.set g.state x y tile) tile x y).bind _ = _
  rw [OldV.check_win_checked_eq_old _ tile hx hy]
  rfl

lemma OldV.make_turn_universal_checked_eq_old (p : Player) (x y : Nat) (g : TicTacToe) :
    OldV.make_turn_universal_checked g p x y = some (OldV.make_turn_universal g p x y) := by
  unfold OldV.make_turn_universal_checked OldV.make_turn_universal
  by_cases h : x > 2 ∨ y > 2
  · simp [h]
  · push_neg at h
    have hx2 : x ≤ 2 := by omega
    have hy2 : y ≤ 2 := by omega
    rw [if_neg (by omega), if_neg (by omega)]
    show (State.get? g.state x y).bind _ = _
    rw [State.get?_eq g.state hx2 hy2]
    show (if State.get g.state x y ≠ Tile.Empty then _ else _) = _
    by_cases hocc : State.get g.state x y ≠ Tile.Empty
    · simp only [if_pos hocc]
      rfl
    · simp only [if_neg hocc]
      show (OldV.make_turn_checked g p.tile x y).bind _ = _
      rw [OldV.make_turn_checked_eq_old g p.tile hx2 hy2]
      by_cases hw : (OldV.make_turn g p.tile x y).1 = true
      · simp only [Option.some_bind, hw, if_true]
        rfl
      · simp only [Option.some_bind, hw, if_false]
        rfl

/-! Theorems settling the claims. -/

/-- Claim C1: the incremental `check_win` is claimed to agree with the
brute-force scan on every board and last-move coordinate, in both engine
versions. It does not: on the board whose anti-diagonal is all `Circle`,
the network version's `check_win` at the last move `(0,2)` misses the
anti-diagonal win (its `get_indirect_diagonal` reads the main diagonal),
and on the board whose main diagonal is all `Circle`, the old version's
`check_win` at the center `(1,1)` misses the diagonal win (its `is_corner`
maps the center to no diagonal). The brute force returns `true` in both
situations. This contradicts the repository's own quickcheck test, which
asserts `check_win == check_win_brute_force`. -/
theorem C1_check_win_disagrees_with_brute_force :
    NetV.check_win antiDiagBoard .Circle 0 2 = false ∧
    check_win_brute_force antiDiagBoard .Circle 0 2 = true ∧
    OldV.check_win mainDiagBoard .Circle 1 1 = false ∧
    check_win_brute_force mainDiagBoard .Circle 1 1 = true := by decide

/-- Claim C2: a local move onto an occupied cell is claimed to fail with
`OccupiedField` and leave turn ownership unchanged. The error and the
unchanged board hold, but `GameSession::make_my_turn` sets
`your_turn = Some(false)` before delegating to the game, so a failed move
still surrenders the turn: here `your_turn` goes from `Some(true)` to
`Some(false)` although the move was rejected. -/
theorem C2_occupied_move_flips_turn_owner :
    occupiedSession.your_turn = some true ∧
    (GameSession.make_my_turn occupiedSession 0 0).1 = .error .OccupiedField ∧
    (GameSession.make_my_turn occupiedSession 0 0).2.game = occupiedSession.game ∧
    (GameSession.make_my_turn occupiedSession 0 0).2.your_turn = some false :=
  ⟨rfl, rfl, rfl, rfl⟩

/-- Claim C3, counterexample: `GameSession::reset` is claimed to produce
`your_turn = None`, but it never touches `your_turn`: resetting a session
whose `your_turn` is `Some(false)` leaves it `Some(false)`. -/
theorem C3_reset_keeps_turn_owner :
    (GameSession.reset concludedSession).your_turn = some false ∧
    (GameSession.reset concludedSession).your_turn ≠ none :=
  ⟨rfl, by decide⟩

/-- Claim C3, amended: for every session state, `reset` empties
`opponent_id`, clears the board and the winner, but leaves `your_turn`
unchanged; `initiate` is total, so a fresh `initiate()` remains legal. -/
theorem C3_reset_clears_all_but_turn_owner (s : GameSession) :
    (GameSession.reset s).opponent_id = "" ∧
    (GameSession.reset s).game.state = emptyState ∧
    (GameSession.reset s).game.winner = .Noone ∧
    (GameSession.reset s).your_turn = s.your_turn :=
  ⟨rfl, rfl, rfl, rfl⟩

/-- Claim C4, counterexample: an inbound `Turn` event is claimed to be
ignored when the session is not active. On a fresh session
(`your_turn = None`, no handshake), `resolve_opponent_turn` nevertheless
mutates the board and sets `your_turn = Some(true)`. -/
theorem C4_turn_applied_when_not_active :
    GameSession.new.your_turn = none ∧
    (resolve_opponent_turn 0 0 GameSession.new).game.state ≠ GameSession.new.game.state ∧
    (resolve_opponent_turn 0 0 GameSession.new).your_turn = some true := by
  decide

/-- Claim C4, amended: `resolve_opponent_turn` applies the inbound move in
every session state — there is no activity check. It always ends with
`your_turn = Some(true)`, and whenever the coordinates are in range, the
cell is empty, the move is not winning and the opponent was not already
recorded as winner, the cell is set to the opponent's mark with the winner
unchanged, even on a session that never completed a handshake. -/
theorem C4_turn_event_never_ignored (s : GameSession) (x y : Nat) :
    (resolve_opponent_turn x y s).your_turn = some true ∧
    (x ≤ 2 → y ≤ 2 → State.get s.game.state x y = .Empty →
      s.game.winner ≠ .Opponent →
      NetV.check_win (State.set s.game.state x y .Cross) .Cross x y = false →
      (resolve_opponent_turn x y s).game.state = State.set s.game.state x y .Cross ∧
      (resolve_opponent_turn x y s).game.winner = s.game.winner) := by
  have hres : resolve_opponent_turn x y s =
      (if TicTacToe.is_opponent_winner (GameSession.make_opponent_turn s x y).game
       then GameSession.reset (GameSession.make_opponent_turn s x y)
       else GameSession.make_opponent_turn s x y) := rfl
  constructor
  · rw [hres]
    split <;> rfl
  · intro hx hy hemp hnw hcw
    have hgame : (GameSession.make_opponent_turn s x y).game =
        { state := State.set s.game.state x y .Cross, winner := s.game.winner } := by
      show (NetV.make_turn_universal s.game .Opponent x y).2 = _
      unfold NetV.make_turn_universal
      rw [if_neg (show ¬(x > 2 ∨ y > 2) by omega), if_neg (not_not_intro hemp)]
      have hwin : (NetV.make_turn s.game Player.Opponent.tile x y).1 = false := hcw
      simp only [hwin, Bool.false_eq_true, if_false]
      rfl
    have hnotwin : TicTacToe.is_opponent_winner (GameSession.make_opponent_turn s x y).game
        = false := by
      rw [hgame]
      show (s.game.winner == Player.Opponent) = false
      simp [hnw]
    have hfinal : resolve_opponent_turn x y s = GameSession.make_opponent_turn s x y := by
      rw [hres, hnotwin]
      simp
    rw [hfinal]
    constructor <;> rw [hgame]

/-- Claim C4, witness for the amended theorem: on a fresh session and the
move `(0,0)`, the event is applied — the cell becomes `Cross`, the winner
is unchanged and `your_turn` becomes `Some(true)`. -/
theorem C4_turn_event_never_ignored_witness :
    (resolve_opponent_turn 0 0 GameSession.new).your_turn = some true ∧
    (resolve_opponent_turn 0 0 GameSession.new).game.state =
      State.set GameSession.new.game.state 0 0 .Cross ∧
    (resolve_opponent_turn 0 0 GameSession.new).game.winner = GameSession.new.game.winner := by
  obtain ⟨h1, h2⟩ := C4_turn_event_never_ignored GameSession.new 0 0
  have h3 := h2 (by decide) (by decide) (by decide) (by decide) (by decide)
  exact ⟨h1, h3.1, h3.2⟩

/-- Claim C5: the diagonal lookup is claimed to map corners to exactly one
actual diagonal, the center to both, edges to none, in both versions.
Neither version satisfies it: the network version maps `(0,2)` to the
`Undirect` diagonal but the line it returns is the main-diagonal cells
(here `[Empty, Circle, Empty]`), not the anti-diagonal cells
`[Circle, Circle, Circle]`; and the old version's `is_corner` maps the
center `(1,1)` to no diagonal at all. -/
theorem C5_diagonal_lookup_wrong_lines :
    NetV.get_diagonal antiDiagBoard 0 2 = some [NetV.get_direct_diagonal antiDiagBoard] ∧
    NetV.get_direct_diagonal antiDiagBoard ≠
      [State.get antiDiagBoard 0 2, State.get antiDiagBoard 1 1,
        State.get antiDiagBoard 2 0] ∧
    OldV.is_corner 1 1 = none ∧
    OldV.get_diagonal mainDiagBoard 1 1 = none := by decide

/-- Claim C6: for every game state, player and out-of-range coordinates
(`x > 2` or `y > 2`), `make_turn_universal` fails with
`GameError::InvalidValue` and returns the game unchanged (board and winner
untouched), in both engine versions. -/
theorem C6_out_of_range_always_invalid_value (p : Player) (x y : Nat) (g : TicTacToe)
    (h : x > 2 ∨ y > 2) :
    NetV.make_turn_universal g p x y = (.error .InvalidValue, g) ∧
    OldV.make_turn_universal g p x y = (.error .InvalidValue, g) := by
  unfold NetV.make_turn_universal OldV.make_turn_universal
  rw [if_pos h, if_pos h]
  exact ⟨rfl, rfl⟩

/-- Claim C6, witness: the out-of-range move `(3,0)` on a fresh game. -/
theorem C6_out_of_range_witness :
    NetV.make_turn_universal TicTacToe.new .You 3 0 = (.error .InvalidValue, TicTacToe.new) ∧
    OldV.make_turn_universal TicTacToe.new .You 3 0 = (.error .InvalidValue, TicTacToe.new) :=
  C6_out_of_range_always_invalid_value .You 3 0 TicTacToe.new (Or.inl (by decide))

/-- Claim C7: an inbound `Init` (invite) event whose embedded identifier
differs from the local peer id leaves the session entirely unchanged —
no opponent recorded, no turn ownership set. -/
theorem C7_foreign_invite_ignored (s : GameSession) (userPeerId initiatorId : String)
    (h : initiatorId ≠ userPeerId) :
    resolve_spawned_messages (.Init initiatorId) s userPeerId = s := by
  simp [resolve_spawned_messages, h]

/-- Claim C7, witness: an invite carrying `"peerA"` processed by the peer
`"peerB"` leaves a fresh session unchanged. -/
theorem C7_foreign_invite_ignored_witness :
    resolve_spawned_messages (.Init "peerA") GameSession.new "peerB" = GameSession.new :=
  C7_foreign_invite_ignored GameSession.new "peerB" "peerA" (by decide)

/-- Claim C8, counterexample: the winner is claimed to be set at most once
per game instance until reset. But `make_turn_universal` never checks
whether the game is already won: after `You` completes row 0 (winner =
`You`), the opponent may keep playing and complete row 1, overwriting the
winner to `Opponent` with no reset in between. -/
theorem C8_winner_overwritten_by_later_win :
    (playAll TicTacToe.new
      [(.You, 0, 0), (.Opponent, 1, 0), (.You, 0, 1), (.Opponent, 1, 1),
        (.You, 0, 2)]).winner = .You ∧
    (playAll TicTacToe.new
      [(.You, 0, 0), (.Opponent, 1, 0), (.You, 0, 1), (.Opponent, 1, 1),
        (.You, 0, 2), (.Opponent, 1, 2)]).winner = .Opponent := by decide

/-- Claim C8, amended: each `make_turn_universal` call either leaves the
winner unchanged or sets it to the moving player; the winner is never
cleared by a move, but a later winning move may overwrite an earlier
outcome — it is not set at most once. -/
theorem C8_winner_changes_only_to_mover (g : TicTacToe) (p : Player) (x y : Nat) :
    (NetV.make_turn_universal g p x y).2.winner = g.winner ∨
    (NetV.make_turn_universal g p x y).2.winner = p := by
  unfold NetV.make_turn_universal
  by_cases h : x > 2 ∨ y > 2
  · rw [if_pos h]
    exact Or.inl rfl
  · rw [if_neg h]
    by_cases hocc : State.get g.state x y ≠ .Empty
    · rw [if_pos hocc]
      exact Or.inl rfl
    · rw [if_neg hocc]
      by_cases hw : (NetV.make_turn g p.tile x y).1 = true
      · right
        simp only [hw, if_true]
      · left
        simp only [hw, if_false]
        rfl

/-- Claim C9, counterexample: at most one message shape is claimed to
validate per payload. A JSON object carrying both a `sender` string and an
`accept` bool deserializes as `Request` and as `Answer` (serde ignores
unknown fields), so `inject_event` pushes two events for this one
message. -/
theorem C9_payload_validates_as_two_shapes :
    (parseRequest multiShapePayload).isSome = true ∧
    (parseAnswer multiShapePayload).isSome = true ∧
    inject_event multiShapePayload = [.Init "peerA", .Start true] :=
  ⟨rfl, rfl, rfl⟩

/-- Claim C9, amended: `inject_event` pushes exactly one internal event per
message shape that validates, in the fixed order `Request`, `Answer`,
`MyTurn`; a payload matching no shape produces no event, but the shapes
are not mutually exclusive, so one payload can produce up to three
events. -/
theorem C9_one_event_per_validating_shape (p : InboundPayload) :
    (inject_event p).length =
      (if (parseRequest p).isSome then 1 else 0) +
      (if (parseAnswer p).isSome then 1 else 0) +
      (if (parseMyTurn p).isSome then 1 else 0) := by
  rcases p with ⟨s, a, x, y⟩
  cases s <;> cases a <;> cases x <;> cases y <;> rfl

/-- Claim C10: for all `usize` inputs, including values ≥ 3,
`make_turn_universal` (hence `make_my_turn` and `make_opponent_turn`) is
total and never indexes out of bounds: the fully bounds-checked clone —
in which every array access may fail — returns `some` of the total
function's result on every input, in both engine versions. Out-of-range
inputs are rejected by the leading range check before any access. -/
theorem C10_no_out_of_bounds_indexing (p : Player) (x y : Nat) (g : TicTacToe) :
    NetV.make_turn_universal_checked g p x y = some (NetV.make_turn_universal g p x y) ∧
    OldV.make_turn_universal_checked g p x y = some (OldV.make_turn_universal g p x y) :=
  ⟨NetV.make_turn_universal_checked_eq_net p x y g, OldV.make_turn_universal_checked_eq_old p x y g⟩

end TTT
